import Mathlib

/-!
Shallow embedding of the request-dispatch core of the cpp-driver repository
(`src/session.cpp`, `src/request_processor.cpp`,
`src/connection_pool_connector.cpp`), together with theorems checking the
natural-language specification against it.

Each definition mirrors one function (or a clearly delimited part of one
function) of the C++ source; machine integers are modelled as `Nat` with the
unsigned-wraparound cases noted where they matter, out-parameters become
`Option` results, and externally visible side effects (callbacks, refcount
operations, error reporting) become explicit event lists.
-/

namespace CppDriver

/-- An address `(ip, port)`; the code only compares addresses for equality. -/
structure Address where
  ip : Nat
  port : Nat
deriving DecidableEq, Repr

/-- The `CassError` codes reached by the modelled code paths. -/
inductive CassError where
  | ok
  | unable_to_connect
  | unable_to_init
  | unable_to_close
  | no_hosts_available
  | request_queue_full
  | execution_profile_invalid
  | unable_to_set_keyspace
deriving DecidableEq, Repr

/-- `Connector::ConnectionError` (§6 of the spec); only equality and the
`CONNECTION_OK` default are used by the modelled code. -/
inductive ConnectionError where
  | connection_ok
  | auth
  | keyspace
  | timeout
  | network
  | internal_err
deriving DecidableEq, Repr

/-! ## RequestProcessor: execution profiles and the flush loop
(`request_processor.cpp`) -/

/-- An execution profile; opaque to the dispatch path, so identified by a tag
(the C++ struct carries policies the modelled code never inspects). -/
structure ExecutionProfile where
  profile_id : Nat
deriving DecidableEq, Repr

/-- `RequestProcessor::execution_profile` (request_processor.cpp:294-308).
The C++ returns `bool` and writes the profile through an out-parameter;
here the two are fused into an `Option`. The profile map `profiles_` is
modelled as an association list. -/
def execution_profile (default_profile : ExecutionProfile)
    (profiles : List (String × ExecutionProfile)) (name : String) :
    Option ExecutionProfile :=
  if name = "" then
    some default_profile
  else
    match profiles.lookup name with
    | some p => some p
    | none => none

/-- Externally visible effects on one dequeued `RequestHandler` inside
`internal_flush_requests`. -/
inductive FlushEvent where
  | handler_init (profile : ExecutionProfile)
  | handler_execute
  | set_error (code : CassError) (message : String)
  | dec_ref
deriving DecidableEq, Repr

/-- The body of the dequeue loop of
`RequestProcessor::internal_flush_requests` (request_processor.cpp:413-432)
for one non-null handler with request profile name `profile_name`: resolve
the profile, then either init + execute the handler or finish it with
`CASS_ERROR_LIB_EXECUTION_PROFILE_INVALID`; in both branches drop the queue
reference with `dec_ref`. -/
def flush_one_request (default_profile : ExecutionProfile)
    (profiles : List (String × ExecutionProfile)) (profile_name : String) :
    List FlushEvent :=
  match execution_profile default_profile profiles profile_name with
  | some profile =>
      [.handler_init profile, .handler_execute, .dec_ref]
  | none =>
      [.set_error .execution_profile_invalid (profile_name ++ (" does not exist")),
       .dec_ref]

/-- What `internal_flush_requests` does after the dequeue loop ends. -/
inductive FlushAction where
  | close_handles
  | done
  | arm_timer (ms : Nat)
  | send_async
deriving DecidableEq, Repr

/-- Result of the tail of `internal_flush_requests`: whether
`is_flushing_.store(false)` ran, whether the compare-exchange back to `true`
was attempted, and the final scheduling action. -/
structure FlushTail where
  cleared_is_flushing : Bool
  cas_attempted : Bool
  action : FlushAction
deriving DecidableEq, Repr

/-- The constant `flush_ratio = 90` of `internal_flush_requests`
(request_processor.cpp:409). -/
def flush_ratio_pct : Nat := 90

/-- Tail of `RequestProcessor::internal_flush_requests`
(request_processor.cpp:435-456), after the queue has been drained.
Inputs are the observed values: `is_closing` is `is_closing_.load()`,
`queue_is_empty` is `request_queue_->is_empty()`, `cas_succeeds` is the
outcome of `is_flushing_.compare_exchange_strong(false, true)` (attempted
only when the queue is non-empty, per the short-circuit `||`), and
`flush_time_ns` is `uv_hrtime() - start_time_ns`. All times are
nanoseconds; the division is C++ unsigned integer division. -/
def internal_flush_tail (is_closing queue_is_empty cas_succeeds : Bool)
    (flush_time_ns : Nat) : FlushTail :=
  if is_closing then
    { cleared_is_flushing := false, cas_attempted := false,
      action := .close_handles }
  else if queue_is_empty then
    { cleared_is_flushing := true, cas_attempted := false, action := .done }
  else if cas_succeeds = false then
    { cleared_is_flushing := true, cas_attempted := true, action := .done }
  else
    let processing_time_ns := flush_time_ns * (100 - flush_ratio_pct) / flush_ratio_pct
    if processing_time_ns ≥ 1000000 then
      { cleared_is_flushing := true, cas_attempted := true,
        action := .arm_timer ((processing_time_ns + 500000) / 1000000) }
    else
      { cleared_is_flushing := true, cas_attempted := true,
        action := .send_async }

/-! ## Session (`session.cpp`) -/

/-- `Session::State` (`state_` in session.cpp). -/
inductive SessionState where
  | closed
  | connecting
  | connected
  | closing
deriving DecidableEq, Repr

/-- Externally visible effects of the modelled `Session` entry points. -/
inductive SessionEvent where
  | set_error (code : CassError) (message : String)
  | inc_ref
  | dec_ref
  | enqueue
  | notify_request
  | issue_connect
  | issue_close
deriving DecidableEq, Repr

/-- `Session::execute(const RequestHandler::Ptr&)` (session.cpp:465-480).
`state` is the acquire-load of `state_`; `enqueue_succeeds` is the outcome of
`request_queue_->enqueue(...)` on the bounded MPMC queue. The returned list
records, in program order: the error set on the handler when not connected;
otherwise the queue reference (`inc_ref`), the enqueue attempt, and either
the notification of the request processor manager or the reference drop
(`dec_ref`) followed by the queue-full error. -/
def Session.execute (state : SessionState) (enqueue_succeeds : Bool) :
    List SessionEvent :=
  if state ≠ SessionState.connected then
    [.set_error .no_hosts_available ("Session is not connected")]
  else if enqueue_succeeds then
    [.inc_ref, .enqueue, .notify_request]
  else
    [.inc_ref, .enqueue, .dec_ref,
     .set_error .request_queue_full ("The request queue has reached capacity")]

/-- `Session::connect_async` (session.cpp:284-314). `state` is the relaxed
load of `state_` under `state_mutex_`; `session_init_succeeds` is whether
`init()` returned 0. Returns the state stored back and the visible events.
On a failed `init()` the state has not been stored, so it stays `closed`
(`clear` does not touch `state_`). -/
def Session.connect_async (state : SessionState) (session_init_succeeds : Bool) :
    SessionState × List SessionEvent :=
  if state ≠ SessionState.closed then
    (state, [.set_error .unable_to_connect ("Already connecting, connected or closed")])
  else if session_init_succeeds = false then
    (state, [.set_error .unable_to_init ("Error initializing session")])
  else
    (.connecting, [.issue_connect])

/-- `Session::close_async` (session.cpp:316-330). -/
def Session.close_async (state : SessionState) :
    SessionState × List SessionEvent :=
  if state = SessionState.closing ∨ state = SessionState.closed then
    (state, [.set_error .unable_to_close ("Already closing or closed")])
  else
    (.closing, [.issue_close])

/-! ## ConnectionPoolConnector (`connection_pool_connector.cpp`) -/

/-- A `PooledConnector` as observed by `ConnectionPoolConnector` at its
completion callback: an identity (its position among the launched
connectors) and the outcome predicates and error data the handler reads. -/
structure PooledConnector where
  id : Nat
  is_ok : Bool
  is_cancelled : Bool
  is_critical_error : Bool
  err_code : ConnectionError
  err_message : String
deriving DecidableEq, Repr

/-- The mutable state of a `ConnectionPoolConnector` that the modelled
member functions read and write: the pending-connector set (by id), the
`critical_error_connector_` slot, the atomic `remaining_` counter, and
whether `release_pool()` has emptied the `pool_` handle. -/
structure ConnectionPoolConnector where
  pending_connections : List Nat
  critical_error_connector : Option PooledConnector
  remaining : Nat
  pool_released : Bool
deriving DecidableEq, Repr

/-- Externally visible effects of the `ConnectionPoolConnector` members. -/
inductive PoolEvent where
  | inc_ref
  | launch (id : Nat)
  | add_connection (id : Nat)
  | close_pool
  | cancel (id : Nat)
  | schedule_reconnect
  | notify_up_or_down
  | user_callback
  | dec_ref
deriving DecidableEq, Repr

/-- `ConnectionPoolConnector::connect` (connection_pool_connector.cpp:40-49):
store `num_connections_per_host` into `remaining_`, allocate that many
`PooledConnector`s into `pending_connections_`, and launch each. -/
def ConnectionPoolConnector.connect (num_connections_per_host : Nat) :
    ConnectionPoolConnector × List PoolEvent :=
  ({ pending_connections := List.range num_connections_per_host,
     critical_error_connector := none,
     remaining := num_connections_per_host,
     pool_released := false },
   .inc_ref :: (List.range num_connections_per_host).map .launch)

/-- `ConnectionPoolConnector::release_pool`
(connection_pool_connector.cpp:60-64): hand the pool out, emptying the
`pool_` handle. -/
def ConnectionPoolConnector.release_pool (st : ConnectionPoolConnector) :
    ConnectionPoolConnector :=
  { st with pool_released := true }

/-- `ConnectionPoolConnector::error_code`
(connection_pool_connector.cpp:66-69). -/
def ConnectionPoolConnector.error_code (st : ConnectionPoolConnector) :
    ConnectionError :=
  match st.critical_error_connector with
  | some c => c.err_code
  | none => .connection_ok

/-- The locked section of `ConnectionPoolConnector::handle_connect`
(connection_pool_connector.cpp:99-124): erase the finished connector from
the pending set, then branch on its outcome. A critical error is recorded
only into an empty `critical_error_connector_` slot, in which case the pool
is closed and every still-pending connector is cancelled; a non-critical
failure schedules a reconnect; a cancelled connector does nothing further. -/
def handle_connect_locked (st : ConnectionPoolConnector) (c : PooledConnector) :
    ConnectionPoolConnector × List PoolEvent :=
  let pending := st.pending_connections.filter (fun i => i ≠ c.id)
  if c.is_ok then
    ({ st with pending_connections := pending }, [.add_connection c.id])
  else if c.is_cancelled = false then
    if c.is_critical_error then
      match st.critical_error_connector with
      | none =>
          ({ st with pending_connections := pending,
                     critical_error_connector := some c },
           .close_pool :: pending.map .cancel)
      | some _ => ({ st with pending_connections := pending }, [])
    else
      ({ st with pending_connections := pending }, [.schedule_reconnect])
  else
    ({ st with pending_connections := pending }, [])

/-- `ConnectionPoolConnector::handle_connect`
(connection_pool_connector.cpp:98-133): the locked section followed by
`remaining_.fetch_sub(1) - 1 == 0`. With the unsigned `remaining_` that
test holds exactly when the value before the decrement was 1; on that
completion the pool notifies up/down, the user callback runs (it may call
`release_pool()`, modelled by `callback_calls_release_pool`), the pool is
closed if the `pool_` handle is still held, and the self-reference is
dropped. -/
def handle_connect (st : ConnectionPoolConnector) (c : PooledConnector)
    (callback_calls_release_pool : Bool) :
    ConnectionPoolConnector × List PoolEvent :=
  let locked := handle_connect_locked st c
  let st1 := locked.1
  if st1.remaining = 1 then
    let st2 : ConnectionPoolConnector := { st1 with remaining := 0 }
    let st3 := if callback_calls_release_pool then st2.release_pool else st2
    if st3.pool_released = false then
      (st3, locked.2 ++ [.notify_up_or_down, .user_callback, .close_pool, .dec_ref])
    else
      (st3, locked.2 ++ [.notify_up_or_down, .user_callback, .dec_ref])
  else
    ({ st1 with remaining := st1.remaining - 1 }, locked.2)

/-- A whole run of completion callbacks against a connector state: each
launched `PooledConnector` finishes exactly once, so a run is a list of
`(connector, does-its-callback-call-release_pool)` pairs folded through
`handle_connect`. -/
def run_connects (st : ConnectionPoolConnector)
    (completions : List (PooledConnector × Bool)) :
    ConnectionPoolConnector × List PoolEvent :=
  match completions with
  | [] => (st, [])
  | c :: rest =>
      let step := handle_connect st c.1 c.2
      let tail := run_connects step.1 rest
      (tail.1, step.2 ++ tail.2)

/-! ## Prepare-on-all-hosts fan-out (`request_processor.cpp:195-236`) -/

/-- The `PrepareAllHandler` as allocated by `on_prepare_all`: only its
countdown (`remaining`) is relevant to the modelled path. -/
structure PrepareAllHandler where
  remaining : Nat
deriving DecidableEq, Repr

/-- Externally visible effects of the fan-out loop of `on_prepare_all`. -/
inductive PrepareEvent where
  | new_callback (address : Address)
  | write (address : Address) (connection : Nat)
deriving DecidableEq, Repr

/-- The fan-out loop of `RequestProcessor::on_prepare_all`
(request_processor.cpp:214-233): per available address, skip the current
host (`continue`), otherwise allocate one `PrepareAllCallback` and, when
`find_least_busy` yields a connection, write the callback on it. -/
def prepare_loop (current_address : Address)
    (find_least_busy : Address → Option Nat) :
    List Address → List PrepareEvent
  | [] => []
  | address :: rest =>
      (if address = current_address then
        []
      else
        .new_callback address ::
          (match find_least_busy address with
           | some conn => [PrepareEvent.write address conn]
           | none => [])) ++ prepare_loop current_address find_least_busy rest

/-- `RequestProcessor::on_prepare_all` (request_processor.cpp:195-236).
`available` is `manager_->available()`, `current_address` the already
prepared host's address, and `find_least_busy` models
`manager_->find_least_busy` (returning a connection id when a pool has a
usable connection). `none` models returning `false` without doing
anything; `some` models returning `true` after allocating the
`PrepareAllHandler` (countdown `available.length - 1`) and running the
fan-out loop, which skips the current host and, per remaining address,
allocates one `PrepareAllCallback` and writes it on the least-busy
connection when one exists. -/
def on_prepare_all (prepare_on_all_hosts : Bool) (available : List Address)
    (current_address : Address) (find_least_busy : Address → Option Nat) :
    Option (PrepareAllHandler × List PrepareEvent) :=
  if prepare_on_all_hosts = false then
    none
  else if available.isEmpty ∨
      (available.length = 1 ∧ available.head? = some current_address) then
    none
  else
    some ({ remaining := available.length - 1 },
      prepare_loop current_address find_least_busy available)

/-! ## Host-state transitions (`request_processor.cpp:136-160, 286-292,
355-396`) -/

/-- `CassHostDistance` as consulted by `internal_host_add_down_up`. -/
inductive HostDistance where
  | dist_local
  | dist_remote
  | dist_ignore
deriving DecidableEq, Repr

/-- A host as the modelled paths see it: its address and up/down state. -/
structure Host where
  address : Address
  is_up : Bool
deriving DecidableEq, Repr

/-- The `Host::HostState` values handled by `internal_host_add_down_up`. -/
inductive HostState where
  | added
  | down
  | up
deriving DecidableEq, Repr

/-- A load-balancing policy, abstracted to the only operation the modelled
code interrogates: `distance(host)`. Its callbacks are recorded as events
tagged with the policy's position in `load_balancing_policies_`. -/
structure LoadBalancingPolicy where
  distance : Host → HostDistance

/-- Externally visible effects of the host-transition paths: the pool
manager's `add`, and the per-policy callbacks (tagged by policy index). -/
inductive HostEvent where
  | manager_add (address : Address)
  | on_add (policy : Nat)
  | on_down (policy : Nat)
  | on_up (policy : Nat)
  | on_remove (policy : Nat)
deriving DecidableEq, Repr

/-- The `switch (state)` inside the policy loop of
`internal_host_add_down_up`, for the policy at index `i`. -/
def policy_callback (i : Nat) (state : HostState) : HostEvent :=
  match state with
  | .added => .on_add i
  | .down => .on_down i
  | .up => .on_up i

/-- The policy loop of `internal_host_add_down_up`
(request_processor.cpp:362-382), walking the policy vector from index `i`:
a policy gets its callback only when
`distance(host) != CASS_HOST_DISTANCE_IGNORE`. -/
def notify_policies (host : Host) (state : HostState) :
    Nat → List LoadBalancingPolicy → List HostEvent
  | _, [] => []
  | i, p :: rest =>
      (if p.distance host ≠ HostDistance.dist_ignore then
        [policy_callback i state]
      else []) ++ notify_policies host state (i + 1) rest

/-- `RequestProcessor::internal_host_add_down_up`
(request_processor.cpp:355-388): on `ADDED` the pool manager's
`add(host->address())` runs first, then the policy loop. -/
def internal_host_add_down_up (policies : List LoadBalancingPolicy)
    (host : Host) (state : HostState) : List HostEvent :=
  (if state = HostState.added then [.manager_add host.address] else []) ++
    notify_policies host state 0 policies

/-- The loop of `internal_host_remove`, walking the policy vector from
index `i`: every policy gets `on_remove`. -/
def remove_loop : Nat → List LoadBalancingPolicy → List HostEvent
  | _, [] => []
  | i, _ :: rest => .on_remove i :: remove_loop (i + 1) rest

/-- `RequestProcessor::internal_host_remove`
(request_processor.cpp:390-396): every policy gets `on_remove`. -/
def internal_host_remove (policies : List LoadBalancingPolicy)
    (host : Host) : List HostEvent :=
  remove_loop 0 policies

/-- `RequestProcessor::get_host` (request_processor.cpp:286-292) over the
processor's local host map `hosts_`, modelled as an association list. -/
def get_host (hosts : List (Address × Host)) (address : Address) :
    Option Host :=
  hosts.lookup address

/-- `RequestProcessor::on_up` (request_processor.cpp:136-144): look the
address up in the local host map; apply the `UP` transition when found,
otherwise only log. Returns the (unchanged) host map and the events. -/
def RequestProcessor.on_up (hosts : List (Address × Host))
    (policies : List LoadBalancingPolicy) (address : Address) :
    List (Address × Host) × List HostEvent :=
  match get_host hosts address with
  | some host => (hosts, internal_host_add_down_up policies host .up)
  | none => (hosts, [])

/-- `RequestProcessor::on_down` (request_processor.cpp:146-154). -/
def RequestProcessor.on_down (hosts : List (Address × Host))
    (policies : List LoadBalancingPolicy) (address : Address) :
    List (Address × Host) × List HostEvent :=
  match get_host hosts address with
  | some host => (hosts, internal_host_add_down_up policies host .down)
  | none => (hosts, [])

/-- `RequestProcessor::on_critical_error` (request_processor.cpp:156-160):
the body is exactly `on_down(address)`; `code` and `message` are unused. -/
def RequestProcessor.on_critical_error (hosts : List (Address × Host))
    (policies : List LoadBalancingPolicy) (address : Address)
    (code : ConnectionError) (message : String) :
    List (Address × Host) × List HostEvent :=
  RequestProcessor.on_down hosts policies address

/-! ## Theorems -/

/-- The millisecond value armed by the flush timer never overshoots the idle
budget by more than half a millisecond. -/
theorem div_round_le (n : Nat) :
    (n + 500000) / 1000000 * 1000000 ≤ n + 500000 :=
  Nat.div_mul_le_self _ _

/-- The millisecond value armed by the flush timer never undershoots the idle
budget by more than half a millisecond. -/
theorem le_div_round (n : Nat) :
    n ≤ (n + 500000) / 1000000 * 1000000 + 500000 := by
  have h₁ := Nat.div_add_mod (n + 500000) 1000000
  have h₂ : (n + 500000) % 1000000 < 1000000 := Nat.mod_lt _ (by norm_num)
  omega

/-- Claim C1: in the flush loop tail with the processor not closing, the
`is_flushing` flag is cleared and the loop returns unless the queue is
non-empty and the CAS of `is_flushing` back to `true` succeeds (the CAS is
attempted exactly when the queue is non-empty); in that case the idle budget
is `flush_time * (100 - 90) / 90` with `flush_ratio = 90`, and if it is at
least 1 ms the flush timer is armed for the budget rounded to the nearest
millisecond (within half a millisecond on either side), else the async
handle is signalled to re-enter the flush immediately. -/
theorem c1_flush_loop_tail (queue_is_empty cas_succeeds : Bool)
    (flush_time_ns : Nat) :
    ((queue_is_empty = true ∨ cas_succeeds = false) →
      internal_flush_tail false queue_is_empty cas_succeeds flush_time_ns =
        { cleared_is_flushing := true, cas_attempted := !queue_is_empty,
          action := .done }) ∧
    (queue_is_empty = false → cas_succeeds = true →
      1000000 ≤ flush_time_ns * (100 - flush_ratio_pct) / flush_ratio_pct →
      internal_flush_tail false queue_is_empty cas_succeeds flush_time_ns =
        { cleared_is_flushing := true, cas_attempted := true,
          action := .arm_timer
            ((flush_time_ns * (100 - flush_ratio_pct) / flush_ratio_pct
              + 500000) / 1000000) } ∧
      (flush_time_ns * (100 - flush_ratio_pct) / flush_ratio_pct + 500000)
          / 1000000 * 1000000 ≤
        flush_time_ns * (100 - flush_ratio_pct) / flush_ratio_pct + 500000 ∧
      flush_time_ns * (100 - flush_ratio_pct) / flush_ratio_pct ≤
        (flush_time_ns * (100 - flush_ratio_pct) / flush_ratio_pct + 500000)
          / 1000000 * 1000000 + 500000) ∧
    (queue_is_empty = false → cas_succeeds = true →
      flush_time_ns * (100 - flush_ratio_pct) / flush_ratio_pct < 1000000 →
      internal_flush_tail false queue_is_empty cas_succeeds flush_time_ns =
        { cleared_is_flushing := true, cas_attempted := true,
          action := .send_async }) := by
  refine ⟨?_, ?_, ?_⟩
  · rintro (h | h)
    · subst h
      cases cas_succeeds <;> simp [internal_flush_tail]
    · subst h
      cases queue_is_empty <;> simp [internal_flush_tail]
  · intro hq hc hge
    subst hq; subst hc
    refine ⟨?_, div_round_le _, le_div_round _⟩
    simp only [internal_flush_tail, Bool.false_eq_true, if_false,
      if_neg (by simp : ¬(true = false))]
    rw [if_pos hge]
  · intro hq hc hlt
    subst hq; subst hc
    simp only [internal_flush_tail, Bool.false_eq_true, if_false,
      if_neg (by simp : ¬(true = false))]
    rw [if_neg (by omega)]

/-- Witness for C1 at concrete inputs: queue drained and empty; CAS failure;
a 90 ms flush arming a 10 ms timer; a 0.9 ms flush re-entering immediately. -/
theorem c1_flush_loop_tail_witness :
    internal_flush_tail false true true 0 =
      { cleared_is_flushing := true, cas_attempted := false, action := .done } ∧
    internal_flush_tail false false false 0 =
      { cleared_is_flushing := true, cas_attempted := true, action := .done } ∧
    internal_flush_tail false false true 90000000 =
      { cleared_is_flushing := true, cas_attempted := true,
        action := .arm_timer 10 } ∧
    internal_flush_tail false false true 900000 =
      { cleared_is_flushing := true, cas_attempted := true,
        action := .send_async } :=
  ⟨(c1_flush_loop_tail true true 0).1 (Or.inl rfl),
   (c1_flush_loop_tail false false 0).1 (Or.inr rfl),
   ((c1_flush_loop_tail false true 90000000).2.1 rfl rfl (by decide)).1,
   (c1_flush_loop_tail false true 900000).2.2 rfl rfl (by decide)⟩

/-- Claim C2: a dequeued handler with an empty profile name gets the default
profile and is initialized and executed; a non-empty name found in the
profile map yields that profile; a non-empty name absent from the map
finishes the handler with `EXECUTION_PROFILE_INVALID` and the handler is
never initialized nor executed; in every case the queue reference is dropped
exactly once. -/
theorem c2_profile_dispatch (default_profile : ExecutionProfile)
    (profiles : List (String × ExecutionProfile)) (profile_name : String) :
    (profile_name = "" →
      flush_one_request default_profile profiles profile_name =
        [.handler_init default_profile, .handler_execute, .dec_ref]) ∧
    (∀ p, profile_name ≠ "" → profiles.lookup profile_name = some p →
      flush_one_request default_profile profiles profile_name =
        [.handler_init p, .handler_execute, .dec_ref]) ∧
    (profile_name ≠ "" → profiles.lookup profile_name = none →
      flush_one_request default_profile profiles profile_name =
        [.set_error .execution_profile_invalid
          (profile_name ++ (" does not exist")), .dec_ref] ∧
      (∀ p, FlushEvent.handler_init p ∉
        flush_one_request default_profile profiles profile_name) ∧
      FlushEvent.handler_execute ∉
        flush_one_request default_profile profiles profile_name) ∧
    (flush_one_request default_profile profiles profile_name).count
      FlushEvent.dec_ref = 1 := by
  refine ⟨?_, ?_, ?_, ?_⟩
  · intro h
    simp [flush_one_request, execution_profile, h]
  · intro p hne hl
    simp [flush_one_request, execution_profile, hne, hl]
  · intro hne hl
    refine ⟨?_, ?_, ?_⟩ <;> simp [flush_one_request, execution_profile, hne, hl]
  · rcases h : execution_profile default_profile profiles profile_name with _ | p <;>
      simp [flush_one_request, h, List.count_cons]

/-- Witness for C2 at concrete inputs: default profile, mapped profile, and
a missing profile name. -/
theorem c2_profile_dispatch_witness :
    flush_one_request ⟨0⟩ [("p1", ⟨1⟩)] "" =
      [.handler_init ⟨0⟩, .handler_execute, .dec_ref] ∧
    flush_one_request ⟨0⟩ [("p1", ⟨1⟩)] "p1" =
      [.handler_init ⟨1⟩, .handler_execute, .dec_ref] ∧
    flush_one_request ⟨0⟩ [("p1", ⟨1⟩)] "missing" =
      [.set_error .execution_profile_invalid ("missing does not exist"),
       .dec_ref] :=
  ⟨(c2_profile_dispatch ⟨0⟩ [("p1", ⟨1⟩)] "").1 rfl,
   (c2_profile_dispatch ⟨0⟩ [("p1", ⟨1⟩)] "p1").2.1 ⟨1⟩ (by decide) (by decide),
   (((c2_profile_dispatch ⟨0⟩ [("p1", ⟨1⟩)] "missing").2.2.1
      (by decide) (by decide)).1).trans (by decide)⟩

/-- Claim C3: `Session::execute` sets `NO_HOSTS_AVAILABLE` without enqueuing
whenever the session is not `CONNECTED`; when connected and the enqueue
fails the queue reference is released (`dec_ref` after `inc_ref`) and the
handler is finished with `REQUEST_QUEUE_FULL`; when the enqueue succeeds the
request processor manager is notified. -/
theorem c3_session_execute (state : SessionState) (enqueue_succeeds : Bool) :
    (state ≠ SessionState.connected →
      Session.execute state enqueue_succeeds =
        [.set_error .no_hosts_available ("Session is not connected")] ∧
      SessionEvent.enqueue ∉ Session.execute state enqueue_succeeds) ∧
    (state = SessionState.connected → enqueue_succeeds = false →
      Session.execute state enqueue_succeeds =
        [.inc_ref, .enqueue, .dec_ref,
         .set_error .request_queue_full
           ("The request queue has reached capacity")]) ∧
    (state = SessionState.connected → enqueue_succeeds = true →
      Session.execute state enqueue_succeeds =
        [.inc_ref, .enqueue, .notify_request]) := by
  refine ⟨?_, ?_, ?_⟩
  · intro h
    constructor <;> simp [Session.execute, h]
  · intro hs he
    subst hs; subst he
    simp [Session.execute]
  · intro hs he
    subst hs; subst he
    simp [Session.execute]

/-- Witness for C3 at concrete inputs: a closing session, a connected
session with a full queue, and a connected session with a successful
enqueue. -/
theorem c3_session_execute_witness :
    Session.execute SessionState.closing true =
      [.set_error .no_hosts_available ("Session is not connected")] ∧
    Session.execute SessionState.connected false =
      [.inc_ref, .enqueue, .dec_ref,
       .set_error .request_queue_full
         ("The request queue has reached capacity")] ∧
    Session.execute SessionState.connected true =
      [.inc_ref, .enqueue, .notify_request] :=
  ⟨((c3_session_execute SessionState.closing true).1 (by decide)).1,
   (c3_session_execute SessionState.connected false).2.1 rfl rfl,
   (c3_session_execute SessionState.connected true).2.2 rfl rfl⟩

/-- Claim C8: `connect_async` fails with `UNABLE_TO_CONNECT` and leaves the
state unchanged whenever the state is not `CLOSED`; `close_async` fails with
`UNABLE_TO_CLOSE` and leaves the state unchanged when the state is `CLOSING`
or `CLOSED`, and otherwise transitions the state to `CLOSING`. -/
theorem c8_connect_close_async (state : SessionState)
    (session_init_succeeds : Bool) :
    (state ≠ SessionState.closed →
      Session.connect_async state session_init_succeeds =
        (state, [.set_error .unable_to_connect
          ("Already connecting, connected or closed")])) ∧
    (state = SessionState.closing ∨ state = SessionState.closed →
      Session.close_async state =
        (state, [.set_error .unable_to_close ("Already closing or closed")])) ∧
    (state ≠ SessionState.closing → state ≠ SessionState.closed →
      Session.close_async state = (.closing, [.issue_close])) := by
  refine ⟨?_, ?_, ?_⟩
  · intro h
    simp [Session.connect_async, h]
  · intro h
    simp [Session.close_async, h]
  · intro h₁ h₂
    simp [Session.close_async, h₁, h₂]

/-- Witness for C8 at concrete inputs: connect on a connected session,
close on a closed session, close on a connected session. -/
theorem c8_connect_close_async_witness :
    Session.connect_async SessionState.connected true =
      (SessionState.connected, [.set_error .unable_to_connect
        ("Already connecting, connected or closed")]) ∧
    Session.close_async SessionState.closed =
      (SessionState.closed,
       [.set_error .unable_to_close ("Already closing or closed")]) ∧
    Session.close_async SessionState.connected =
      (SessionState.closing, [.issue_close]) :=
  ⟨(c8_connect_close_async SessionState.connected true).1 (by decide),
   (c8_connect_close_async SessionState.closed true).2.1 (Or.inr rfl),
   (c8_connect_close_async SessionState.connected true).2.2
     (by decide) (by decide)⟩

/-- Claim C9: for every address, error code and message,
`RequestProcessor::on_critical_error` has exactly the effect of
`RequestProcessor::on_down` on that address; the code and message are
ignored. -/
theorem c9_on_critical_error_is_on_down (hosts : List (Address × Host))
    (policies : List LoadBalancingPolicy) (address : Address)
    (code : ConnectionError) (message : String) :
    RequestProcessor.on_critical_error hosts policies address code message =
      RequestProcessor.on_down hosts policies address :=
  rfl

/-- Claim C10: for an address absent from the processor's local host map,
`on_up` and `on_down` are no-ops: the host map is unchanged and no event is
produced (no policy callback, no pool-manager action). -/
theorem c10_unknown_address_noop (hosts : List (Address × Host))
    (policies : List LoadBalancingPolicy) (address : Address)
    (h : get_host hosts address = none) :
    RequestProcessor.on_up hosts policies address = (hosts, []) ∧
    RequestProcessor.on_down hosts policies address = (hosts, []) := by
  constructor <;> simp [RequestProcessor.on_up, RequestProcessor.on_down, h]

/-- Witness for C10: a one-host map and a different address. -/
theorem c10_unknown_address_noop_witness :
    RequestProcessor.on_up [(⟨1, 9042⟩, ⟨⟨1, 9042⟩, true⟩)] [] ⟨2, 9042⟩ =
      ([(⟨1, 9042⟩, ⟨⟨1, 9042⟩, true⟩)], []) ∧
    RequestProcessor.on_down [(⟨1, 9042⟩, ⟨⟨1, 9042⟩, true⟩)] [] ⟨2, 9042⟩ =
      ([(⟨1, 9042⟩, ⟨⟨1, 9042⟩, true⟩)], []) :=
  c10_unknown_address_noop [(⟨1, 9042⟩, ⟨⟨1, 9042⟩, true⟩)] [] ⟨2, 9042⟩
    (by decide)

/-- The locked section of `handle_connect` never changes the `remaining_`
counter. -/
theorem handle_connect_locked_remaining (st : ConnectionPoolConnector)
    (c : PooledConnector) :
    (handle_connect_locked st c).1.remaining = st.remaining := by
  cases hok : c.is_ok <;> cases hcan : c.is_cancelled <;>
    cases hcrit : c.is_critical_error <;>
    cases hce : st.critical_error_connector <;>
    simp [handle_connect_locked, hok, hcan, hcrit, hce]

/-- The locked section of `handle_connect` never changes the `pool_`
handle. -/
theorem handle_connect_locked_released (st : ConnectionPoolConnector)
    (c : PooledConnector) :
    (handle_connect_locked st c).1.pool_released = st.pool_released := by
  cases hok : c.is_ok <;> cases hcan : c.is_cancelled <;>
    cases hcrit : c.is_critical_error <;>
    cases hce : st.critical_error_connector <;>
    simp [handle_connect_locked, hok, hcan, hcrit, hce]

/-- The locked section of `handle_connect` never invokes the user
callback. -/
theorem user_callback_not_in_locked (st : ConnectionPoolConnector)
    (c : PooledConnector) :
    PoolEvent.user_callback ∉ (handle_connect_locked st c).2 := by
  cases hok : c.is_ok <;> cases hcan : c.is_cancelled <;>
    cases hcrit : c.is_critical_error <;>
    cases hce : st.critical_error_connector <;>
    simp [handle_connect_locked, hok, hcan, hcrit, hce]

/-- `handle_connect` leaves the `critical_error_connector_` slot exactly as
the locked section left it. -/
theorem handle_connect_critical (st : ConnectionPoolConnector)
    (c : PooledConnector) (r : Bool) :
    (handle_connect st c r).1.critical_error_connector =
      (handle_connect_locked st c).1.critical_error_connector := by
  unfold handle_connect
  dsimp only
  split
  · split <;> split <;> rfl
  · rfl

/-- The events of `handle_connect` extend the events of its locked
section. -/
theorem handle_connect_events_extend (st : ConnectionPoolConnector)
    (c : PooledConnector) (r : Bool) :
    ∃ tail, (handle_connect st c r).2 = (handle_connect_locked st c).2 ++ tail := by
  unfold handle_connect
  dsimp only
  split
  · split <;> split <;> exact ⟨_, rfl⟩
  · exact ⟨[], (List.append_nil _).symm⟩

/-- Claim C4: in `ConnectionPoolConnector::handle_connect`, the first
pooled connector completing with a critical error is recorded as the sole
critical error, the pool is closed, and every remaining pending connector
is cancelled; a later critical completion does not overwrite the recorded
connector; `error_code()` returns the recorded connector's error code, or
`CONNECTION_OK` when none was recorded. -/
theorem c4_critical_error_sticky (st : ConnectionPoolConnector)
    (c : PooledConnector) (r : Bool) :
    (st.critical_error_connector = none → c.is_ok = false →
     c.is_cancelled = false → c.is_critical_error = true →
      (handle_connect st c r).1.critical_error_connector = some c ∧
      PoolEvent.close_pool ∈ (handle_connect st c r).2 ∧
      ∀ j ∈ st.pending_connections, j ≠ c.id →
        PoolEvent.cancel j ∈ (handle_connect st c r).2) ∧
    (∀ c₀, st.critical_error_connector = some c₀ →
      (handle_connect st c r).1.critical_error_connector = some c₀) ∧
    (∀ c₀, st.critical_error_connector = some c₀ →
      st.error_code = c₀.err_code) ∧
    (st.critical_error_connector = none →
      st.error_code = ConnectionError.connection_ok) := by
  refine ⟨?_, ?_, ?_, ?_⟩
  · intro hn hok hcan hcrit
    have hlocked :
        (handle_connect_locked st c).1.critical_error_connector = some c ∧
        (handle_connect_locked st c).2 =
          PoolEvent.close_pool ::
            (st.pending_connections.filter (fun i => i ≠ c.id)).map
              PoolEvent.cancel := by
      simp [handle_connect_locked, hok, hcan, hcrit, hn]
    obtain ⟨tail, htail⟩ := handle_connect_events_extend st c r
    refine ⟨?_, ?_, ?_⟩
    · rw [handle_connect_critical, hlocked.1]
    · rw [htail, hlocked.2]
      simp
    · intro j hj hne
      rw [htail, hlocked.2]
      refine List.mem_append_left _ (List.mem_cons_of_mem _ ?_)
      exact List.mem_map_of_mem _ (List.mem_filter.2 ⟨hj, by simpa using hne⟩)
  · intro c₀ hc₀
    rw [handle_connect_critical]
    cases hok : c.is_ok <;> cases hcan : c.is_cancelled <;>
      cases hcrit : c.is_critical_error <;>
      simp [handle_connect_locked, hok, hcan, hcrit, hc₀]
  · intro c₀ hc₀
    simp [ConnectionPoolConnector.error_code, hc₀]
  · intro hn
    simp [ConnectionPoolConnector.error_code, hn]

/-- Witness for C4: a critical auth failure on connector 0 with connectors
1 and 2 still pending, a second critical failure not overwriting, and
`error_code` on both slot states. -/
theorem c4_critical_error_sticky_witness :
    (handle_connect ⟨[0, 1, 2], none, 3, false⟩
        ⟨0, false, false, true, .auth, ("bad credentials")⟩
        false).1.critical_error_connector =
      some ⟨0, false, false, true, .auth, ("bad credentials")⟩ ∧
    PoolEvent.close_pool ∈
      (handle_connect ⟨[0, 1, 2], none, 3, false⟩
        ⟨0, false, false, true, .auth, ("bad credentials")⟩ false).2 ∧
    PoolEvent.cancel 2 ∈
      (handle_connect ⟨[0, 1, 2], none, 3, false⟩
        ⟨0, false, false, true, .auth, ("bad credentials")⟩ false).2 ∧
    (handle_connect ⟨[2], some ⟨0, false, false, true, .auth, ("bad credentials")⟩, 2, false⟩
        ⟨1, false, false, true, .keyspace, ("missing keyspace")⟩
        false).1.critical_error_connector =
      some ⟨0, false, false, true, .auth, ("bad credentials")⟩ ∧
    ConnectionPoolConnector.error_code
      ⟨[], some ⟨0, false, false, true, .auth, ("bad credentials")⟩, 0, false⟩ =
      ConnectionError.auth ∧
    ConnectionPoolConnector.error_code ⟨[], none, 0, false⟩ =
      ConnectionError.connection_ok := by
  have h₁ := (c4_critical_error_sticky ⟨[0, 1, 2], none, 3, false⟩
    ⟨0, false, false, true, .auth, ("bad credentials")⟩ false).1 rfl rfl rfl rfl
  have h₂ := (c4_critical_error_sticky
    ⟨[2], some ⟨0, false, false, true, .auth, ("bad credentials")⟩, 2, false⟩
    ⟨1, false, false, true, .keyspace, ("missing keyspace")⟩ false).2.1
    ⟨0, false, false, true, .auth, ("bad credentials")⟩ rfl
  have h₃ := (c4_critical_error_sticky
    ⟨[], some ⟨0, false, false, true, .auth, ("bad credentials")⟩, 0, false⟩
    ⟨0, false, false, true, .auth, ("bad credentials")⟩ false).2.2.1
    ⟨0, false, false, true, .auth, ("bad credentials")⟩ rfl
  have h₄ := (c4_critical_error_sticky ⟨[], none, 0, false⟩
    ⟨0, false, false, true, .auth, ("bad credentials")⟩ false).2.2.2 rfl
  exact ⟨h₁.1, h₁.2.1, h₁.2.2 2 (by decide) (by decide), h₂, h₃, h₄⟩

/-- Each completion decrements the `remaining_` counter by one. -/
theorem handle_connect_remaining (st : ConnectionPoolConnector)
    (c : PooledConnector) (r : Bool) :
    (handle_connect st c r).1.remaining = st.remaining - 1 := by
  unfold handle_connect
  dsimp only
  split
  · rename_i h
    rw [handle_connect_locked_remaining] at h
    split <;> split <;> simp [ConnectionPoolConnector.release_pool, h]
  · rename_i h
    rw [handle_connect_locked_remaining] at h ⊢

/-- A single completion invokes the user callback exactly when the
`remaining_` counter was 1 before its decrement. -/
theorem handle_connect_callback_count (st : ConnectionPoolConnector)
    (c : PooledConnector) (r : Bool) :
    (handle_connect st c r).2.count PoolEvent.user_callback =
      if st.remaining = 1 then 1 else 0 := by
  unfold handle_connect
  dsimp only
  have hnot := List.count_eq_zero.2 (user_callback_not_in_locked st c)
  split
  · rename_i h
    rw [handle_connect_locked_remaining] at h
    rw [if_pos h]
    split <;> split <;> simp [List.count_append, hnot]
  · rename_i h
    rw [handle_connect_locked_remaining] at h
    rw [if_neg h]
    exact hnot

/-- Over a run of completions whose length matches the initial value of the
`remaining_` counter, the user callback is invoked exactly once. -/
theorem run_connects_callback_once (cs : List (PooledConnector × Bool)) :
    ∀ st : ConnectionPoolConnector, st.remaining = cs.length →
      1 ≤ cs.length →
      (run_connects st cs).2.count PoolEvent.user_callback = 1 := by
  induction cs with
  | nil =>
    intro st _ hlen
    simp at hlen
  | cons c rest ih =>
    intro st hrem hlen
    simp only [List.length_cons] at hrem
    simp only [run_connects, List.count_append]
    rw [handle_connect_callback_count]
    rcases rest with _ | ⟨c₂, rest'⟩
    · rw [if_pos (by simpa using hrem)]
      simp [run_connects]
    · rw [if_neg (by simp at hrem ⊢; omega)]
      rw [ih (handle_connect st c.1 c.2).1
        (by rw [handle_connect_remaining, hrem]; simp)
        (by simp)]

/-- Claim C5: `connect` initializes the outstanding counter to
`num_connections_per_host` and launches that many pooled connectors;
exactly the completion that brings the counter to zero invokes the user
callback, and it is invoked once over a full run; after the callback the
pool is closed if and only if `release_pool()` was not called. -/
theorem c5_countdown_and_callback (n : Nat) (st : ConnectionPoolConnector)
    (c : PooledConnector) (r : Bool) (cs : List (PooledConnector × Bool)) :
    ((ConnectionPoolConnector.connect n).1.remaining = n ∧
     (ConnectionPoolConnector.connect n).1.pending_connections.length = n ∧
     ((ConnectionPoolConnector.connect n).2.count (PoolEvent.launch 0) =
        if 1 ≤ n then 1 else 0)) ∧
    (st.remaining = cs.length → 1 ≤ cs.length →
      (run_connects st cs).2.count PoolEvent.user_callback = 1) ∧
    (st.remaining ≠ 1 →
      PoolEvent.user_callback ∉ (handle_connect st c r).2) ∧
    (st.remaining = 1 → st.pool_released = false →
      (handle_connect st c r).2 =
        (handle_connect_locked st c).2 ++
          [PoolEvent.notify_up_or_down, PoolEvent.user_callback] ++
          (if r then [PoolEvent.dec_ref]
           else [PoolEvent.close_pool, PoolEvent.dec_ref])) := by
  refine ⟨⟨?_, ?_, ?_⟩, run_connects_callback_once cs st, ?_, ?_⟩
  · rfl
  · simp [ConnectionPoolConnector.connect]
  · cases n with
    | zero => simp [ConnectionPoolConnector.connect]
    | succ m =>
      rw [if_pos (by omega)]
      simp only [ConnectionPoolConnector.connect, List.count_cons]
      rw [List.count_eq_one_of_mem]
      · simp
      · exact (List.nodup_map_iff (fun a b h => by simpa using h)).2
          (List.nodup_range _)
      · exact List.mem_map_of_mem _ (by simp)
  · intro hne hmem
    have := handle_connect_callback_count st c r
    rw [if_neg hne] at this
    exact absurd (List.count_eq_zero.1 this) (by simpa using hmem)
  · intro h1 hrel
    unfold handle_connect
    dsimp only
    rw [if_pos (by rw [handle_connect_locked_remaining]; exact h1)]
    have hrel₂ : (handle_connect_locked st c).1.pool_released = false := by
      rw [handle_connect_locked_released]; exact hrel
    cases r
    · simp [ConnectionPoolConnector.release_pool, hrel₂]
    · simp [ConnectionPoolConnector.release_pool, hrel₂]

/-- Witness for C5: two connections per host, both completing
successfully; and single completions with and without `release_pool` in
the callback. -/
theorem c5_countdown_and_callback_witness :
    (ConnectionPoolConnector.connect 2).1.remaining = 2 ∧
    (run_connects ⟨[0, 1], none, 2, false⟩
        [(⟨0, true, false, false, .connection_ok, ("")⟩, false),
         (⟨1, true, false, false, .connection_ok, ("")⟩, false)]).2.count
      PoolEvent.user_callback = 1 ∧
    PoolEvent.user_callback ∉
      (handle_connect ⟨[0, 1], none, 2, false⟩
        ⟨0, true, false, false, .connection_ok, ("")⟩ false).2 ∧
    (handle_connect ⟨[1], none, 1, false⟩
        ⟨1, true, false, false, .connection_ok, ("")⟩ false).2 =
      [PoolEvent.add_connection 1, PoolEvent.notify_up_or_down,
       PoolEvent.user_callback, PoolEvent.close_pool, PoolEvent.dec_ref] ∧
    (handle_connect ⟨[1], none, 1, false⟩
        ⟨1, true, false, false, .connection_ok, ("")⟩ true).2 =
      [PoolEvent.add_connection 1, PoolEvent.notify_up_or_down,
       PoolEvent.user_callback, PoolEvent.dec_ref] := by
  refine ⟨(c5_countdown_and_callback 2 ⟨[], none, 0, false⟩
      ⟨0, true, false, false, .connection_ok, ("")⟩ false []).1.1, ?_, ?_, ?_, ?_⟩
  · exact (c5_countdown_and_callback 2 ⟨[0, 1], none, 2, false⟩
      ⟨0, true, false, false, .connection_ok, ("")⟩ false
      [(⟨0, true, false, false, .connection_ok, ("")⟩, false),
       (⟨1, true, false, false, .connection_ok, ("")⟩, false)]).2.1 rfl (by decide)
  · exact (c5_countdown_and_callback 2 ⟨[0, 1], none, 2, false⟩
      ⟨0, true, false, false, .connection_ok, ("")⟩ false []).2.2.1 (by decide)
  · exact ((c5_countdown_and_callback 2 ⟨[1], none, 1, false⟩
      ⟨1, true, false, false, .connection_ok, ("")⟩ false []).2.2.2 rfl rfl).trans
      (by decide)
  · exact ((c5_countdown_and_callback 2 ⟨[1], none, 1, false⟩
      ⟨1, true, false, false, .connection_ok, ("")⟩ true []).2.2.2 rfl rfl).trans
      (by decide)

/-- The fan-out loop allocates one `PrepareAllCallback` per occurrence of
an address other than the current host's. -/
theorem prepare_loop_count (current : Address)
    (find_least_busy : Address → Option Nat) (a : Address) (ha : a ≠ current) :
    ∀ l : List Address,
      (prepare_loop current find_least_busy l).count
        (PrepareEvent.new_callback a) = l.count a := by
  intro l
  induction l with
  | nil => simp [prepare_loop]
  | cons x rest ih =>
    by_cases hx : x = current
    · subst hx
      simp [prepare_loop, ih, List.count_cons_of_ne ha]
    · cases hf : find_least_busy x <;>
        simp [prepare_loop, hx, hf, ih, List.count_cons]

/-- The fan-out loop never allocates a callback for the current host's
address. -/
theorem prepare_loop_count_current (current : Address)
    (find_least_busy : Address → Option Nat) :
    ∀ l : List Address,
      (prepare_loop current find_least_busy l).count
        (PrepareEvent.new_callback current) = 0 := by
  intro l
  induction l with
  | nil => simp [prepare_loop]
  | cons x rest ih =>
    by_cases hx : x = current
    · subst hx
      simp [prepare_loop, ih]
    · cases hf : find_least_busy x <;>
        simp [prepare_loop, hx, hf, ih, List.count_cons, Ne.symm hx]

/-- When the least-busy lookup yields a connection for a non-current
address of the loop, the write on it is attempted. -/
theorem prepare_loop_write (current : Address)
    (find_least_busy : Address → Option Nat) (a : Address) (conn : Nat) :
    ∀ l : List Address, a ∈ l → a ≠ current →
      find_least_busy a = some conn →
      PrepareEvent.write a conn ∈ prepare_loop current find_least_busy l := by
  intro l
  induction l with
  | nil => simp
  | cons x rest ih =>
    intro hmem ha hf
    rcases List.mem_cons.1 hmem with hax | hrest
    · subst hax
      simp [prepare_loop, ha, hf]
    · exact List.mem_append_right _ (ih hrest ha hf)

/-- Claim C6: `on_prepare_all` does nothing and returns `false` when
prepare-on-all-hosts is disabled, when no address is available, or when the
only available address is the current host's; otherwise it returns `true`
with a `PrepareAllHandler` whose countdown is the number of available
addresses minus one, allocates exactly one `PrepareAllCallback` per
available address other than the current host's, and attempts a write on
the least-busy connection of each such address that has one. -/
theorem c6_on_prepare_all (prepare_on_all_hosts : Bool)
    (available : List Address) (current_address : Address)
    (find_least_busy : Address → Option Nat) :
    (on_prepare_all false available current_address find_least_busy = none) ∧
    (available = [] →
      on_prepare_all prepare_on_all_hosts available current_address
        find_least_busy = none) ∧
    (available = [current_address] →
      on_prepare_all prepare_on_all_hosts available current_address
        find_least_busy = none) ∧
    (prepare_on_all_hosts = true → available ≠ [] →
      ¬(available.length = 1 ∧ available.head? = some current_address) →
      on_prepare_all prepare_on_all_hosts available current_address
          find_least_busy =
        some ({ remaining := available.length - 1 },
          prepare_loop current_address find_least_busy available) ∧
      (available.Nodup → ∀ a ∈ available, a ≠ current_address →
        (prepare_loop current_address find_least_busy available).count
          (PrepareEvent.new_callback a) = 1) ∧
      (prepare_loop current_address find_least_busy available).count
        (PrepareEvent.new_callback current_address) = 0 ∧
      (∀ a ∈ available, a ≠ current_address → ∀ conn,
        find_least_busy a = some conn →
        PrepareEvent.write a conn ∈
          prepare_loop current_address find_least_busy available)) := by
  refine ⟨?_, ?_, ?_, ?_⟩
  · simp [on_prepare_all]
  · intro h
    subst h
    cases prepare_on_all_hosts <;> simp [on_prepare_all]
  · intro h
    subst h
    cases prepare_on_all_hosts <;> simp [on_prepare_all]
  · intro hb hne hsingle
    subst hb
    refine ⟨?_, ?_, prepare_loop_count_current _ _ _, ?_⟩
    · rw [on_prepare_all, if_neg (by simp), if_neg]
      simp only [List.isEmpty_iff]
      push_neg
      exact ⟨hne, fun h1 h2 => hsingle ⟨h1, h2⟩⟩
    · intro hnd a hmem ha
      rw [prepare_loop_count current_address find_least_busy a ha]
      exact List.count_eq_one_of_mem hnd hmem
    · intro a hmem ha conn hf
      exact prepare_loop_write _ _ _ _ _ hmem ha hf

/-- Witness for C6: two available hosts with the first already prepared;
and the disabled / empty / only-current no-op cases. -/
theorem c6_on_prepare_all_witness :
    on_prepare_all true [⟨1, 1⟩, ⟨2, 2⟩] ⟨1, 1⟩
        (fun a => if a = ⟨2, 2⟩ then some 7 else none) =
      some ({ remaining := 1 },
        [PrepareEvent.new_callback ⟨2, 2⟩, PrepareEvent.write ⟨2, 2⟩ 7]) ∧
    (prepare_loop ⟨1, 1⟩ (fun a => if a = ⟨2, 2⟩ then some 7 else none)
        [⟨1, 1⟩, ⟨2, 2⟩]).count (PrepareEvent.new_callback ⟨2, 2⟩) = 1 ∧
    PrepareEvent.write ⟨2, 2⟩ 7 ∈
      prepare_loop ⟨1, 1⟩ (fun a => if a = ⟨2, 2⟩ then some 7 else none)
        [⟨1, 1⟩, ⟨2, 2⟩] ∧
    on_prepare_all false [⟨1, 1⟩, ⟨2, 2⟩] ⟨1, 1⟩ (fun _ => none) = none ∧
    on_prepare_all true [] ⟨1, 1⟩ (fun _ => none) = none ∧
    on_prepare_all true [⟨1, 1⟩] ⟨1, 1⟩ (fun _ => none) = none := by
  have h := (c6_on_prepare_all true [⟨1, 1⟩, ⟨2, 2⟩] ⟨1, 1⟩
    (fun a => if a = ⟨2, 2⟩ then some 7 else none)).2.2.2 rfl
    (by decide) (by decide)
  refine ⟨h.1.trans (by decide),
    h.2.1 (by decide) ⟨2, 2⟩ (by decide) (by decide),
    h.2.2.2 ⟨2, 2⟩ (by decide) (by decide) 7 (by decide),
    (c6_on_prepare_all true [⟨1, 1⟩, ⟨2, 2⟩] ⟨1, 1⟩ (fun _ => none)).1,
    (c6_on_prepare_all true [] ⟨1, 1⟩ (fun _ => none)).2.1 rfl,
    (c6_on_prepare_all true [⟨1, 1⟩] ⟨1, 1⟩ (fun _ => none)).2.2.1 rfl⟩

/-- Two policy callbacks for the same transition coincide only for the same
policy index. -/
theorem policy_callback_inj (state : HostState) (i j : Nat) :
    policy_callback i state = policy_callback j state ↔ i = j := by
  cases state <;> simp [policy_callback]

/-- A pool-manager `add` is never a policy callback. -/
theorem manager_add_ne_policy_callback (address : Address) (j : Nat)
    (state : HostState) :
    HostEvent.manager_add address ≠ policy_callback j state := by
  cases state <;> simp [policy_callback]

/-- The policy loop started at index `start` emits no callback for an index
below `start`. -/
theorem notify_policies_tag_lt (host : Host) (state : HostState) :
    ∀ (l : List LoadBalancingPolicy) (start i : Nat), i < start →
      policy_callback i state ∉ notify_policies host state start l := by
  intro l
  induction l with
  | nil =>
    intro start i h
    simp [notify_policies]
  | cons q rest ih =>
    intro start i h hmem
    simp only [notify_policies] at hmem
    rcases List.mem_append.1 hmem with h₁ | h₁
    · by_cases hq : q.distance host ≠ HostDistance.dist_ignore
      · rw [if_pos hq] at h₁
        have := (policy_callback_inj state i start).1 (List.mem_singleton.1 h₁)
        omega
      · rw [if_neg hq] at h₁
        simp at h₁
    · exact ih (start + 1) i (by omega) h₁

/-- Any event in the policy loop is a policy callback for the loop's
transition. -/
theorem notify_policies_shape (host : Host) (state : HostState) :
    ∀ (l : List LoadBalancingPolicy) (start : Nat) (e : HostEvent),
      e ∈ notify_policies host state start l →
      ∃ j, e = policy_callback j state := by
  intro l
  induction l with
  | nil =>
    intro start e h
    simp [notify_policies] at h
  | cons q rest ih =>
    intro start e h
    simp only [notify_policies] at h
    rcases List.mem_append.1 h with h₁ | h₁
    · by_cases hq : q.distance host ≠ HostDistance.dist_ignore
      · rw [if_pos hq] at h₁
        exact ⟨start, List.mem_singleton.1 h₁⟩
      · rw [if_neg hq] at h₁
        simp at h₁
    · exact ih (start + 1) e h₁

/-- The policy loop gives the policy at offset `i` its callback exactly
once when its distance is not `IGNORE`, and never when it is. -/
theorem notify_policies_count (host : Host) (state : HostState) :
    ∀ (l : List LoadBalancingPolicy) (start i : Nat) (p : LoadBalancingPolicy),
      l[i]? = some p →
      (notify_policies host state start l).count
          (policy_callback (start + i) state) =
        if p.distance host ≠ HostDistance.dist_ignore then 1 else 0 := by
  intro l
  induction l with
  | nil =>
    intro start i p hp
    simp at hp
  | cons q rest ih =>
    intro start i p hp
    cases i with
    | zero =>
      obtain rfl : q = p := by simpa using hp
      simp only [notify_policies, List.count_append, Nat.add_zero]
      rw [List.count_eq_zero.2
        (notify_policies_tag_lt host state rest (start + 1) start (by omega))]
      by_cases hq : q.distance host ≠ HostDistance.dist_ignore
      · rw [if_pos hq, if_pos hq]
        simp
      · rw [if_neg hq, if_neg hq]
        simp
    | succ i' =>
      rw [List.getElem?_cons_succ] at hp
      simp only [notify_policies, List.count_append]
      have harith : start + (i' + 1) = start + 1 + i' := by omega
      rw [harith, ih (start + 1) i' p hp]
      have hne : policy_callback (start + 1 + i') state ≠
          policy_callback start state := by
        rw [Ne, policy_callback_inj]
        omega
      by_cases hq : q.distance host ≠ HostDistance.dist_ignore
      · rw [if_pos hq, List.count_cons_of_ne hne, List.count_nil]
        omega
      · rw [if_neg hq, List.count_nil]
        omega

/-- The removal loop started at index `start` emits no `on_remove` for an
index below `start`. -/
theorem remove_loop_tag_lt :
    ∀ (l : List LoadBalancingPolicy) (start i : Nat), i < start →
      HostEvent.on_remove i ∉ remove_loop start l := by
  intro l
  induction l with
  | nil =>
    intro start i h
    simp [remove_loop]
  | cons q rest ih =>
    intro start i h hmem
    simp only [remove_loop, List.mem_cons] at hmem
    rcases hmem with h₁ | h₁
    · simp at h₁
      omega
    · exact ih (start + 1) i (by omega) h₁

/-- The removal loop gives every policy its `on_remove` exactly once. -/
theorem remove_loop_count :
    ∀ (l : List LoadBalancingPolicy) (start i : Nat), i < l.length →
      (remove_loop start l).count (HostEvent.on_remove (start + i)) = 1 := by
  intro l
  induction l with
  | nil =>
    intro start i h
    simp at h
  | cons q rest ih =>
    intro start i h
    cases i with
    | zero =>
      simp only [remove_loop, Nat.add_zero]
      rw [List.count_cons_self, List.count_eq_zero.2
        (remove_loop_tag_lt rest (start + 1) start (by omega))]
    | succ i' =>
      simp only [remove_loop]
      have harith : start + (i' + 1) = start + 1 + i' := by omega
      rw [harith, List.count_cons_of_ne (by simp; omega),
        ih (start + 1) i' (by simpa using h)]

/-- Claim C7: for an `ADDED`/`UP`/`DOWN` transition on a host of the local
host map, each attached policy with `distance(host) != IGNORE` receives
exactly one corresponding callback and policies with distance `IGNORE`
receive none (and every event is either the pool manager's `add` or a
callback of the transition's kind); for `ADDED` the pool manager's
`add(address)` comes first; a removal sends `on_remove` to every policy. -/
theorem c7_host_transitions (policies : List LoadBalancingPolicy)
    (host : Host) (state : HostState) (i : Nat) (p : LoadBalancingPolicy)
    (hp : policies[i]? = some p) :
    (p.distance host ≠ HostDistance.dist_ignore →
      (internal_host_add_down_up policies host state).count
        (policy_callback i state) = 1) ∧
    (p.distance host = HostDistance.dist_ignore →
      (internal_host_add_down_up policies host state).count
        (policy_callback i state) = 0) ∧
    (∀ e ∈ internal_host_add_down_up policies host state,
      e = HostEvent.manager_add host.address ∨
        ∃ j, e = policy_callback j state) ∧
    (state = HostState.added →
      (internal_host_add_down_up policies host state).head? =
        some (HostEvent.manager_add host.address)) ∧
    (internal_host_remove policies host).count (HostEvent.on_remove i) = 1 := by
  have hcount := notify_policies_count host state policies 0 i p hp
  rw [Nat.zero_add] at hcount
  have hmgr : ∀ s : HostState,
      (if s = HostState.added then [HostEvent.manager_add host.address]
        else []).count (policy_callback i s) = 0 := by
    intro s
    by_cases hs : s = HostState.added
    · rw [if_pos hs, List.count_cons_of_ne
        (Ne.symm (manager_add_ne_policy_callback host.address i s)),
        List.count_nil]
    · rw [if_neg hs, List.count_nil]
  refine ⟨?_, ?_, ?_, ?_, ?_⟩
  · intro hd
    rw [internal_host_add_down_up, List.count_append, hmgr, hcount,
      if_pos hd]
  · intro hd
    rw [internal_host_add_down_up, List.count_append, hmgr, hcount,
      if_neg (by simp [hd])]
  · intro e he
    rw [internal_host_add_down_up] at he
    rcases List.mem_append.1 he with h₁ | h₁
    · left
      by_cases hs : state = HostState.added
      · rw [if_pos hs] at h₁
        exact List.mem_singleton.1 h₁
      · rw [if_neg hs] at h₁
        simp at h₁
    · exact Or.inr (notify_policies_shape host state policies 0 e h₁)
  · intro hs
    subst hs
    simp [internal_host_add_down_up]
  · have hlen : i < policies.length := by
      cases hlt : Nat.decLt i policies.length with
      | isTrue h => exact h
      | isFalse h =>
        rw [List.getElem?_eq_none (by omega)] at hp
        cases hp
    have := remove_loop_count policies 0 i hlen
    rw [Nat.zero_add] at this
    rw [internal_host_remove]
    exact this

/-- Witness for C7: two policies (one local-distance, one ignoring the
host) over a concrete host, for the `UP`, `ADDED` and removal paths. -/
theorem c7_host_transitions_witness :
    (internal_host_add_down_up
        [⟨fun _ => HostDistance.dist_local⟩, ⟨fun _ => HostDistance.dist_ignore⟩]
        ⟨⟨1, 9042⟩, true⟩ HostState.up).count
      (policy_callback 0 HostState.up) = 1 ∧
    (internal_host_add_down_up
        [⟨fun _ => HostDistance.dist_local⟩, ⟨fun _ => HostDistance.dist_ignore⟩]
        ⟨⟨1, 9042⟩, true⟩ HostState.up).count
      (policy_callback 1 HostState.up) = 0 ∧
    (internal_host_add_down_up
        [⟨fun _ => HostDistance.dist_local⟩, ⟨fun _ => HostDistance.dist_ignore⟩]
        ⟨⟨1, 9042⟩, true⟩ HostState.added).head? =
      some (HostEvent.manager_add ⟨1, 9042⟩) ∧
    (internal_host_remove
        [⟨fun _ => HostDistance.dist_local⟩, ⟨fun _ => HostDistance.dist_ignore⟩]
        ⟨⟨1, 9042⟩, true⟩).count (HostEvent.on_remove 1) = 1 :=
  ⟨(c7_host_transitions
      [⟨fun _ => HostDistance.dist_local⟩, ⟨fun _ => HostDistance.dist_ignore⟩]
      ⟨⟨1, 9042⟩, true⟩ HostState.up 0 ⟨fun _ => HostDistance.dist_local⟩
      rfl).1 (by decide),
   (c7_host_transitions
      [⟨fun _ => HostDistance.dist_local⟩, ⟨fun _ => HostDistance.dist_ignore⟩]
      ⟨⟨1, 9042⟩, true⟩ HostState.up 1 ⟨fun _ => HostDistance.dist_ignore⟩
      rfl).2.1 (by decide),
   (c7_host_transitions
      [⟨fun _ => HostDistance.dist_local⟩, ⟨fun _ => HostDistance.dist_ignore⟩]
      ⟨⟨1, 9042⟩, true⟩ HostState.added 0 ⟨fun _ => HostDistance.dist_local⟩
      rfl).2.2.2.1 rfl,
   (c7_host_transitions
      [⟨fun _ => HostDistance.dist_local⟩, ⟨fun _ => HostDistance.dist_ignore⟩]
      ⟨⟨1, 9042⟩, true⟩ HostState.up 1 ⟨fun _ => HostDistance.dist_ignore⟩
      rfl).2.2.2.2⟩

end CppDriver
